import Mathlib

/-!
Verification of the nested-literal tensor builder
(`torch/csrc/api/src/detail/TensorDataContainer.cpp`).

The development is a shallow embedding of `TensorDataContainer.cpp`:

* `ScalarType`, `C10Scalar`, `Device`, `BackendTensor`, `TensorOptions`
  model the opaque backend vocabulary (`at::ScalarType`, `c10::Scalar`,
  `at::Device`, `at::Tensor`, `at::TensorOptions`) that the file consumes.
* `TensorDataContainer` models the container class: the C++ class stores
  `sizes_`, `scalar_type_`, a tag `type_`, and one active payload among
  `scalar_` / `init_list_` / `tensor_`; here the tag is the constructor of
  a sum type and the payload fields live on their constructor.  The scalar
  variant always has empty `sizes_` (the scalar constructor initializes
  `sizes_()` empty and nothing mutates it), so `sizes_` is stored only on
  the list and tensor variants.
* `TORCH_CHECK` / `TORCH_INTERNAL_ASSERT` failures are modelled as
  `Except.error` values of type `TDCError`.
* Backend-visible actions (tensor creation, elementwise fill, device
  transfer) are recorded in an explicit event trace, and the two
  thread-local autograd flags (`AutoNonVariableTypeMode`, `NoGradGuard`)
  are threaded as explicit state so that scoping and restoration of the
  guards is part of the model.
-/

/-- Model of `at::ScalarType`, restricted to `Undefined` plus the ten kinds
generated by `AT_FORALL_SCALAR_TYPES_AND3(Bool, Half, BFloat16, _)` in the
source file. -/
inductive ScalarType where
  | Undefined
  | Bool
  | Byte
  | Char
  | Short
  | Int
  | Long
  | Half
  | Float
  | Double
  | BFloat16
deriving DecidableEq, Repr

/-- Modelled from the spec: `c10::Scalar`, the backend's boxed scalar value
(§6 treats the runtime as opaque).  `c10::Scalar` stores a boolean, a 64-bit
integer, or a double; the double carrier is modelled as an exact rational
because no claim exercises floating-point rounding. -/
inductive C10Scalar where
  | b (v : Bool)
  | i (v : Int)
  | d (v : ℚ)
deriving DecidableEq, Repr

/-- Model of `at::Device`: the staging device `at::kCPU` and remote devices. -/
inductive Device where
  | cpu
  | cuda (index : Nat)
deriving DecidableEq, Repr

/-- Modelled from the spec: the backend tensor (`at::Tensor`), an opaque
collaborator per §6 carrying a shape, an element kind, a device, and dense
contents.  Contents are a flat row-major list; uninitialized cells from
`at::empty` are modelled as zeros since no claim reads pre-fill contents. -/
structure BackendTensor where
  sizes : List Int
  dtype : ScalarType
  device : Device
  data : List C10Scalar
deriving DecidableEq, Repr

/-- Model of `at::TensorOptions` as consumed by this file: a target device,
a target element kind and the `is_variable` flag. -/
structure TensorOptions where
  device : Device
  dtype : ScalarType
  is_variable : Bool
deriving DecidableEq, Repr

/-- Model of the enum `TensorDataContainerType`. -/
inductive TensorDataContainerType where
  | Scalar
  | InitList
  | Tensor
deriving DecidableEq, Repr

/-- Errors surfaced by the file: `TORCH_CHECK` in the brace-list constructor
(`shapeMismatch`, `kindMismatch`), `TORCH_CHECK` in the variant accessors
(`misuse`), and `TORCH_INTERNAL_ASSERT` (`internalAssert`). -/
inductive TDCError where
  | shapeMismatch (expected got : List Int)
  | kindMismatch (expected got : ScalarType)
  | misuse (msg : String)
  | internalAssert (msg : String)
deriving DecidableEq, Repr

/-- Model of the class `TensorDataContainer`.  The C++ tag field `type_` is
the constructor; `sizes_` and `scalar_type_` are stored per constructor. -/
inductive TensorDataContainer where
  | ScalarV (scalar_type_ : ScalarType) (scalar_ : C10Scalar)
  | InitListV (sizes_ : List Int) (scalar_type_ : ScalarType)
      (init_list_ : List TensorDataContainer)
  | TensorV (sizes_ : List Int) (scalar_type_ : ScalarType)
      (tensor_ : BackendTensor)

namespace TensorDataContainer

/-- The tag `type_` of a container (the C++ member `type_`). -/
def type_ : TensorDataContainer → TensorDataContainerType
  | .ScalarV _ _ => .Scalar
  | .InitListV _ _ _ => .InitList
  | .TensorV _ _ _ => .Tensor

/-- Source lines 67-69: `is_scalar()`. -/
def is_scalar (c : TensorDataContainer) : Bool :=
  c.type_ == TensorDataContainerType.Scalar

/-- Source lines 78-80: `is_init_list()`. -/
def is_init_list (c : TensorDataContainer) : Bool :=
  c.type_ == TensorDataContainerType.InitList

/-- Source lines 89-91: `is_tensor()`. -/
def is_tensor (c : TensorDataContainer) : Bool :=
  c.type_ == TensorDataContainerType.Tensor

/-- Source lines 100-102: `sizes()`.  The scalar constructor initializes
`sizes_` to the empty vector (line 17) and nothing ever mutates it. -/
def sizes : TensorDataContainer → List Int
  | .ScalarV _ _ => []
  | .InitListV s _ _ => s
  | .TensorV s _ _ => s

/-- Source lines 104-106: `scalar_type()`. -/
def scalar_type : TensorDataContainer → ScalarType
  | .ScalarV st _ => st
  | .InitListV _ st _ => st
  | .TensorV _ st _ => st

/-- Source lines 10-13: the default constructor, an `InitList` container
with `sizes_ = {0}` and scalar type `Undefined`. -/
def default_construct : TensorDataContainer :=
  .InitListV [0] .Undefined []

/-- Source lines 15-22: the family of scalar constructors generated by
`AT_FORALL_SCALAR_TYPES_AND3(Bool, Half, BFloat16, TENSOR)`.  Each overload
for a native type `T` stores the tag `at::kS` for its kind `S` and the value
converted to `c10::Scalar`; the model takes the kind tag and the converted
boxed value directly. -/
def from_scalar (st : ScalarType) (v : C10Scalar) : TensorDataContainer :=
  .ScalarV st v

/-- The message of the `TORCH_CHECK` at source lines 72-74. -/
def scalarAccessMsg : String :=
  "Can only call `scalar()` on a TensorDataContainer that has `is_scalar() == true`"

/-- Source lines 71-76: `scalar()`, guarded by `TORCH_CHECK(is_scalar(), ...)`. -/
def scalar : TensorDataContainer → Except TDCError C10Scalar
  | .ScalarV _ v => .ok v
  | _ => .error (.misuse scalarAccessMsg)

/-- The message of the `TORCH_CHECK` at source lines 83-85. -/
def initListAccessMsg : String :=
  "Can only call `init_list()` on a TensorDataContainer that has `is_init_list() == true`"

/-- Source lines 82-87: `init_list()`, guarded by `TORCH_CHECK(is_init_list(), ...)`. -/
def init_list : TensorDataContainer → Except TDCError (List TensorDataContainer)
  | .InitListV _ _ l => .ok l
  | _ => .error (.misuse initListAccessMsg)

/-- The message of the `TORCH_CHECK` at source lines 94-96. -/
def tensorAccessMsg : String :=
  "Can only call `tensor()` on a TensorDataContainer that has `is_tensor() == true`"

/-- Source lines 93-98: `tensor()`, guarded by `TORCH_CHECK(is_tensor(), ...)`. -/
def tensor : TensorDataContainer → Except TDCError BackendTensor
  | .TensorV _ _ t => .ok t
  | _ => .error (.misuse tensorAccessMsg)

/-- Source lines 29-44: the validation loop of the `initializer_list`
constructor.  It walks the children in order; for each child it first checks
`elem.sizes() == first_elem.sizes()` (`TORCH_CHECK` at lines 31-38) and then
`elem.scalar_type() == first_elem.scalar_type()` (`TORCH_CHECK` at
lines 39-43); the first failing check aborts the construction. -/
def checkAgainstFirst (first : TensorDataContainer) :
    List TensorDataContainer → Except TDCError Unit
  | [] => .ok ()
  | elem :: rest =>
    if elem.sizes = first.sizes then
      if elem.scalar_type = first.scalar_type then
        checkAgainstFirst first rest
      else
        .error (.kindMismatch first.scalar_type elem.scalar_type)
    else
      .error (.shapeMismatch first.sizes elem.sizes)

/-- Source lines 24-48: the `initializer_list` constructor, the spec's
`from_brace_list`.  For a non-empty brace list it validates every child
against the first one (lines 29-44) and then assembles
`sizes_ = [init_list.size()] ++ first_elem.sizes()` (lines 45-47) with
`scalar_type_ = init_list.begin()->scalar_type()` (line 26).  An empty brace
literal never reaches this constructor: in C++, `{}` selects the
zero-argument constructor (lines 10-13) by overload resolution, so the
brace-literal entry point for an empty child sequence is
`default_construct`. -/
def from_brace_list (children : List TensorDataContainer) :
    Except TDCError TensorDataContainer :=
  match children with
  | [] => .ok default_construct
  | first :: _ =>
    match checkAgainstFirst first children with
    | .error e => .error e
    | .ok _ =>
      .ok (.InitListV (((children.length : Int)) :: first.sizes)
        first.scalar_type children)

end TensorDataContainer

section ModelDefs

open TensorDataContainer

/-- Helper: the Boolean predicate "this child disagrees with the first child
on shape or on element kind" (the disjunction of the two `TORCH_CHECK`
conditions at source lines 31 and 39). -/
def childMismatch (first c : TensorDataContainer) : Bool :=
  !(c.sizes == first.sizes) || !(c.scalar_type == first.scalar_type)

/-- Helper: the error raised for an offending child: shape is checked before
kind (source lines 31-38 precede lines 39-43). -/
def childMismatchError (first c : TensorDataContainer) : TDCError :=
  if c.sizes = first.sizes then
    .kindMismatch first.scalar_type c.scalar_type
  else
    .shapeMismatch first.sizes c.sizes

/-- The concrete child sequence refuting C2 as stated: the second child
mismatches only in kind, a later child mismatches in shape. -/
def c2cex : List TensorDataContainer :=
  [from_scalar .Int (.i 1), from_scalar .Float (.d 2), default_construct]

/-- Helper: whether an `Except` value is a success. -/
def exceptIsOk : Except TDCError α → Bool
  | .ok _ => true
  | .error _ => false

end ModelDefs

/-- Number of elements of a dense tensor of the given shape. -/
def numelOf (sizes : List Int) : Nat :=
  (sizes.map Int.toNat).prod

namespace BackendTensor

/-- Dimension count (`Tensor::dim()`). -/
def dim (t : BackendTensor) : Nat := t.sizes.length

/-- Modelled from the spec: the backend `index(tensor, i)` sub-view along
axis 0 (§6).  The mutable alias is modelled functionally: `index` reads the
slice and `writeSub` writes a filled slice back into the parent. -/
def index (t : BackendTensor) (i : Nat) : BackendTensor :=
  { sizes := t.sizes.tail, dtype := t.dtype, device := t.device,
    data := (t.data.drop (i * numelOf t.sizes.tail)).take (numelOf t.sizes.tail) }

/-- Functional write-back of a filled axis-0 slice (see `index`). -/
def writeSub (t : BackendTensor) (i : Nat) (sub : BackendTensor) : BackendTensor :=
  { t with data := t.data.take (i * numelOf t.sizes.tail) ++ sub.data ++
      t.data.drop ((i + 1) * numelOf t.sizes.tail) }

/-- Modelled from the spec: the backend in-place fill (`Tensor::fill_`,
§6 `fill_inplace`): every cell receives the scalar; shape, kind and device
are unchanged. -/
def fill_ (t : BackendTensor) (v : C10Scalar) : BackendTensor :=
  { t with data := t.data.map (fun _ => v) }

/-- Modelled from the spec: the transfer primitive `Tensor::to(device)`
(§6 `transfer`): a bulk copy that changes only the device (identity when
the devices match); shape, kind and contents are preserved. -/
def toDevice (t : BackendTensor) (d : Device) : BackendTensor :=
  { t with device := d }

/-- Modelled from the spec: `Tensor::to(options)` — transfer to the device
and element kind requested by the options; the shape is preserved (contents
conversion is opaque backend behavior and is modelled as the identity). -/
def toOptions (t : BackendTensor) (options : TensorOptions) : BackendTensor :=
  { t with device := options.device, dtype := options.dtype }

/-- Read of the element at flat index `i` (`tensor[i].item<T>()` for a 1-D
tensor). -/
def itemAt (t : BackendTensor) (i : Nat) : C10Scalar :=
  t.data.getD i (C10Scalar.i 0)

end BackendTensor

/-- Modelled from the spec: `at::scalar_tensor(scalar, opts)` — the 0-rank
tensor factory of §6. -/
def scalar_tensor (v : C10Scalar) (options : TensorOptions) : BackendTensor :=
  { sizes := [], dtype := options.dtype, device := options.device, data := [v] }

/-- Modelled from the spec: `at::empty(shape, opts)` — uninitialized dense
tensor of §6; the uninitialized contents are modelled as zeros since no
claim reads a cell before it is filled. -/
def emptyTensor (sizes : List Int) (options : TensorOptions) : BackendTensor :=
  { sizes := sizes, dtype := options.dtype, device := options.device,
    data := List.replicate (numelOf sizes) (C10Scalar.i 0) }

/-- Modelled from the spec: `at::native::tensor(values, opts)` — the 1-D
bulk constructor of §6 (`make_flat_tensor`); the element kind is the kind
inferred from the native element type of the sequence. -/
def nativeTensor (values : List C10Scalar) (st : ScalarType)
    (options : TensorOptions) : BackendTensor :=
  { sizes := [(values.length : Int)], dtype := st, device := options.device,
    data := values }

/-- The two thread-local autograd flags used by the file:
`nonVarTypeMode` is the flag set by `at::AutoNonVariableTypeMode(true)`,
`gradModeEnabled` is the flag cleared by `at::NoGradGuard`.  The RAII
scoping of a guard is modelled structurally: a callee receives the state
valid inside the scope and the caller continues with the state from before
the scope, so restoration on every exit path (including error exits) is
part of the model. -/
structure GradState where
  nonVarTypeMode : Bool
  gradModeEnabled : Bool
deriving DecidableEq, Repr

/-- Which backend creation primitive produced a tensor. -/
inductive CreateKind where
  | scalarTensorCall
  | emptyCall
  | nativeTensorCall
deriving DecidableEq, Repr

/-- Observable backend actions, for the temporal claims: tensor creation,
an elementwise in-place fill write, a `Tensor::to` transfer call, and entry
into `fill_tensor` dispatched on a variant tag.  Creation, write and
transfer events record the autograd flags active at the call. -/
inductive BackendEvent where
  | create (k : CreateKind) (dev : Device) (nonVarTypeMode gradModeEnabled : Bool)
  | fillWrite (dev : Device) (nonVarTypeMode gradModeEnabled : Bool)
  | toCall (src dst : Device) (createsNew : Bool) (nonVarTypeMode gradModeEnabled : Bool)
  | fillEnter (ty : TensorDataContainerType)
deriving DecidableEq, Repr

namespace BackendEvent

/-- Whether the event is an invocation of the device-transfer primitive. -/
def isTransferCall : BackendEvent → Bool
  | .toCall _ _ _ _ _ => true
  | _ => false

/-- Whether the event brings a new backend tensor into existence: every
creation primitive does; a transfer does exactly when it is not the
identity (`Tensor::to` returns `*this` unchanged when nothing differs). -/
def isTensorCreation : BackendEvent → Bool
  | .create _ _ _ _ => true
  | .toCall _ _ n _ _ => n
  | _ => false

/-- The `AutoNonVariableTypeMode` flag recorded on the event. -/
def underNonVarTypeMode : BackendEvent → Bool
  | .create _ _ nv _ => nv
  | .toCall _ _ _ nv _ => nv
  | .fillWrite _ nv _ => nv
  | .fillEnter _ => false

/-- Whether the event is the entry of `fill_tensor` on a `Tensor`-variant
container (the internal-invariant branch at source lines 199-202). -/
def isFillEnterOnTensor : BackendEvent → Bool
  | .fillEnter .Tensor => true
  | _ => false

end BackendEvent

/-- Source lines 50-59: the `at::ArrayRef<T>` constructor family (the
spec's `from_flat`), generated for the same ten kinds.  It stores
`sizes_ = [values.size()]`, the kind tag, tag `Tensor`, and creates
`tensor_ = at::native::tensor(values, TensorOptions().device(at::kCPU).is_variable(false))`
while `at::AutoNonVariableTypeMode non_var_type_mode(true)` is in scope
(line 55); the guard is restored when the constructor exits.  The
`std::vector<T>` overloads at lines 61-65 delegate to this constructor. -/
def TensorDataContainer.from_flat (st : ScalarType) (values : List C10Scalar)
    (m : GradState) : List BackendEvent × GradState × TensorDataContainer :=
  let m1 : GradState := { m with nonVarTypeMode := true }
  let opts : TensorOptions := { device := .cpu, dtype := st, is_variable := false }
  let t := nativeTensor values st opts
  ([.create .nativeTensorCall Device.cpu m1.nonVarTypeMode m1.gradModeEnabled],
   m, .TensorV [(values.length : Int)] st t)

/-- The `TORCH_INTERNAL_ASSERT` message at source lines 200-202. -/
def fillOnTensorMsg : String :=
  "TensorDataContainer is already a Tensor type, `fill_tensor` should not be called"

mutual

/-- Source lines 179-206: `fill_tensor(at::Tensor tensor)`.  For a scalar
it asserts a 0-dim target and fills it in place under `at::NoGradGuard`
(lines 180-185); for an init list it asserts the first dimension matches
the child count and recursively fills `tensor[index]` for each child
(lines 186-198); for a tensor variant it is an internal invariant violation
(lines 199-202).  Each entry is recorded as a `fillEnter` event with the
dispatched variant tag. -/
def TensorDataContainer.fill_tensor (c : TensorDataContainer)
    (t : BackendTensor) (m : GradState) :
    List BackendEvent × GradState × Except TDCError BackendTensor :=
  match c with
  | .ScalarV _ v =>
    if t.dim = 0 then
      let mg : GradState := { m with gradModeEnabled := false }
      ([.fillEnter .Scalar,
        .fillWrite t.device mg.nonVarTypeMode mg.gradModeEnabled],
       m, .ok (t.fill_ v))
    else
      ([.fillEnter .Scalar], m,
       .error (.internalAssert "Expected a 0-dim Tensor"))
  | .InitListV _ _ children =>
    if t.sizes.headD 0 = (children.length : Int) then
      let r := TensorDataContainer.fillChildren children t 0 m
      (.fillEnter .InitList :: r.1, m, r.2.2)
    else
      ([.fillEnter .InitList], m,
       .error (.internalAssert
         "Expected a Tensor with the child count in its first dimension"))
  | .TensorV _ _ _ =>
    ([.fillEnter .Tensor], m, .error (.internalAssert fillOnTensorMsg))

/-- The loop at source lines 194-198: fill `tensor[index]` for each child in
order, stopping at the first failure.  The sub-view write-back is modelled
by `writeSub` (see `BackendTensor.index`). -/
def TensorDataContainer.fillChildren (cs : List TensorDataContainer)
    (t : BackendTensor) (i : Nat) (m : GradState) :
    List BackendEvent × GradState × Except TDCError BackendTensor :=
  match cs with
  | [] => ([], m, .ok t)
  | c :: rest =>
    let r1 := TensorDataContainer.fill_tensor c (t.index i) m
    match r1.2.2 with
    | .error e => (r1.1, m, .error e)
    | .ok sub =>
      let r2 := TensorDataContainer.fillChildren rest (t.writeSub i sub) (i + 1) m
      (r1.1 ++ r2.1, m, r2.2.2)

end

/-- Source lines 108-130: `convert_to_tensor(const at::TensorOptions&)`,
the spec's `materialize`.

Scalar (lines 109-111): create via `at::scalar_tensor` with the guard
`at::AutoNonVariableTypeMode(true)` in scope for the call.

InitList (lines 112-124): allocate `at::empty(sizes_, options.device(kCPU))`
inside an immediately-invoked lambda that scopes the guard to the
allocation alone, then `fill_tensor` and finally one
`tensor.to(options.device())`, both outside the guard.

Tensor (lines 125-126): `tensor_.to(options)`, with no guard. -/
def TensorDataContainer.convert_to_tensor (c : TensorDataContainer)
    (options : TensorOptions) (m : GradState) :
    List BackendEvent × GradState × Except TDCError BackendTensor :=
  match c with
  | .ScalarV _ v =>
    let m1 : GradState := { m with nonVarTypeMode := true }
    ([.create .scalarTensorCall options.device m1.nonVarTypeMode m1.gradModeEnabled],
     m, .ok (scalar_tensor v { options with is_variable := false }))
  | .InitListV s st children =>
    let m1 : GradState := { m with nonVarTypeMode := true }
    let cpuOpts : TensorOptions :=
      { options with device := Device.cpu, is_variable := false }
    let t0 := emptyTensor s cpuOpts
    let e0 := BackendEvent.create .emptyCall Device.cpu m1.nonVarTypeMode m1.gradModeEnabled
    let rF := TensorDataContainer.fill_tensor (.InitListV s st children) t0 m
    match rF.2.2 with
    | .error e => (e0 :: rF.1, m, .error e)
    | .ok t1 =>
      let eT := BackendEvent.toCall Device.cpu options.device
        (Device.cpu != options.device) m.nonVarTypeMode m.gradModeEnabled
      (e0 :: rF.1 ++ [eT], m, .ok (t1.toDevice options.device))
  | .TensorV _ _ t =>
    let eT := BackendEvent.toCall t.device options.device
      ((t.device != options.device) || (t.dtype != options.dtype))
      m.nonVarTypeMode m.gradModeEnabled
    ([eT], m, .ok (t.toOptions options))

mutual

/-- A container that can arise from a rectangular nested brace literal (or
a top-level flat tensor): the stored `sizes_` is consistent with the
payload, every `InitList` is rectangular (all children share the first
child's shape), and the children of an `InitList` are themselves literal
containers — in particular not `Tensor`-variant, since a brace literal's
leaves are scalar containers.  This is the precondition "well-formed
(rectangular)" of spec §8 P1. -/
def TensorDataContainer.wellFormedLiteral : TensorDataContainer → Bool
  | .ScalarV _ _ => true
  | .InitListV s _ children =>
    (match children with
     | [] => s == [0]
     | first :: _ =>
       (s == ((children.length : Int) :: first.sizes)) &&
         children.all (fun c => c.sizes == first.sizes)) &&
    TensorDataContainer.wellFormedChildren children
  | .TensorV s _ t => s == t.sizes

/-- Companion of `wellFormedLiteral` for a child list. -/
def TensorDataContainer.wellFormedChildren : List TensorDataContainer → Bool
  | [] => true
  | c :: rest =>
    !c.is_tensor && TensorDataContainer.wellFormedLiteral c &&
      TensorDataContainer.wellFormedChildren rest

end

mutual

/-- No `Tensor`-variant container occurs as a strict descendant through
`InitList` children (the container itself may be a top-level flat tensor,
which `convert_to_tensor` never passes to `fill_tensor`). -/
def TensorDataContainer.noFlatInsideList : TensorDataContainer → Bool
  | .ScalarV _ _ => true
  | .InitListV _ _ children => TensorDataContainer.noFlatChildren children
  | .TensorV _ _ _ => true

/-- Companion of `noFlatInsideList` for a child list. -/
def TensorDataContainer.noFlatChildren : List TensorDataContainer → Bool
  | [] => true
  | c :: rest =>
    !c.is_tensor && TensorDataContainer.noFlatInsideList c &&
      TensorDataContainer.noFlatChildren rest

end


/-- The item loop of the `Tensor`-variant branch of the pretty-printer
(source lines 156-173): the rendering of `tensor_[i].item()` for each index
in order, concatenated with no separator.  `render` is the opaque textual
form of a scalar at a kind (see `pretty_print_recursive`). -/
def printTensorItemsAux (render : ScalarType → C10Scalar → String)
    (st : ScalarType) (t : BackendTensor) : List Nat → String
  | [] => ""
  | i :: rest => render st (t.itemAt i) ++ printTensorItemsAux render st t rest

mutual

/-- Source lines 132-177: `pretty_print_recursive(std::ostream&)`.
Modelled from the spec: the iostream textual form of one scalar value at a
kind — including the BFloat16-to-float widening of lines 137-147, which is
about which text a leaf produces, not about the document structure — is the
opaque parameter `render`.  A scalar renders as its text (lines 133-147);
an init list renders as an open brace, the children's renderings with the
separator `", "` emitted after every non-last child (lines 148-154); a
tensor renders as an open brace, the items `tensor_[i]` for
`0 <= i < tensor_.sizes()[0]` rendered adjacently with no separator
(lines 155-173), and a close brace. -/
def TensorDataContainer.pretty_print_recursive
    (render : ScalarType → C10Scalar → String) :
    TensorDataContainer → String
  | .ScalarV st v => render st v
  | .InitListV _ _ children =>
    "\x7b" ++ TensorDataContainer.printChildren render children ++ "\x7d"
  | .TensorV _ st t =>
    "\x7b" ++ printTensorItemsAux render st t
      (List.range (t.sizes.headD 0).toNat) ++ "\x7d"

/-- The iterator loop of the `InitList` branch (source lines 150-153):
print each child, and append `", "` whenever the child is not the last. -/
def TensorDataContainer.printChildren
    (render : ScalarType → C10Scalar → String) :
    List TensorDataContainer → String
  | [] => ""
  | c :: rest =>
    TensorDataContainer.pretty_print_recursive render c ++
      (if rest.isEmpty then "" else ", ") ++
      TensorDataContainer.printChildren render rest

end

/-- A flat-tensor container built by `from_flat` from the single value `7`,
used as a brace-list child in the counterexample to C8. -/
def c8flatChild : TensorDataContainer :=
  (TensorDataContainer.from_flat .Int [C10Scalar.i 7] ⟨false, true⟩).2.2

/-- The container produced by `from_brace_list [c8flatChild]`: an `InitList`
whose only child is a `Tensor`-variant container.  Construction accepts it
(one child trivially matches itself), but materialization reaches the
`fill_tensor` branch for the `Tensor` variant. -/
def c8cex : TensorDataContainer :=
  .InitListV [1, 1] .Int [c8flatChild]

/-- The facts established about every `fill_tensor` / `fillChildren` run on
a target tensor `t` with incoming autograd state `m`: the state is restored,
the trace contains no transfer and no creation, every elementwise write is
on `t`'s device with the caller's `AutoNonVariableTypeMode` flag and the
grad mode disabled (the `NoGradGuard` of source line 184), and a successful
run preserves the target's shape and device. -/
def FillRunFacts (t : BackendTensor) (m : GradState)
    (r : List BackendEvent × GradState × Except TDCError BackendTensor) : Prop :=
  r.2.1 = m ∧
  (∀ e ∈ r.1, e.isTransferCall = false ∧ e.isTensorCreation = false) ∧
  (∀ dev nv gm, BackendEvent.fillWrite dev nv gm ∈ r.1 →
    dev = t.device ∧ nv = m.nonVarTypeMode ∧ gm = false) ∧
  (∀ t', r.2.2 = .ok t' → t'.sizes = t.sizes ∧ t'.device = t.device)

-- THEOREMS-SPLIT-MARKER

/-- Structural induction principle for the nested inductive
`TensorDataContainer`, proved by strong induction on `sizeOf`. -/
theorem TensorDataContainer.strongInduction {motive : TensorDataContainer → Prop}
    (hs : ∀ st v, motive (.ScalarV st v))
    (hl : ∀ s st children, (∀ c ∈ children, motive c) →
      motive (.InitListV s st children))
    (ht : ∀ s st t, motive (.TensorV s st t)) :
    ∀ c, motive c := by
  have H : ∀ (n : Nat) (c : TensorDataContainer), sizeOf c ≤ n → motive c := by
    intro n
    induction n with
    | zero =>
      intro c hc
      cases c <;> simp at hc
    | succ n ih =>
      intro c hc
      match c with
      | .ScalarV st v => exact hs st v
      | .TensorV s st t => exact ht s st t
      | .InitListV s st children =>
        refine hl s st children (fun c' hmem => ih c' ?_)
        have h1 := List.sizeOf_lt_of_mem hmem
        have h2 : sizeOf children <
            sizeOf (TensorDataContainer.InitListV s st children) := by
          simp
        simp at hc
        omega
  exact fun c => H (sizeOf c) c le_rfl


section ClaimsPart1

open TensorDataContainer

/-- Helper: if every child agrees with `first` on sizes and scalar type, the
validation loop succeeds. -/
theorem checkAgainstFirst_ok (first : TensorDataContainer) :
    ∀ cs : List TensorDataContainer,
      (∀ c ∈ cs, c.sizes = first.sizes ∧ c.scalar_type = first.scalar_type) →
      checkAgainstFirst first cs = .ok () := by
  intro cs
  induction cs with
  | nil => intro _; rfl
  | cons c rest ih =>
    intro h
    have hc := h c (by simp)
    simp only [checkAgainstFirst, hc.1, hc.2, if_true]
    exact ih (fun x hx => h x (by simp [hx]))

/-- Helper: on a uniform non-empty child sequence the brace-list
constructor succeeds with the assembled sizes and first child's kind. -/
theorem from_brace_list_ok_of_uniform (first : TensorDataContainer)
    (rest : List TensorDataContainer)
    (h : ∀ c ∈ first :: rest, c.sizes = first.sizes ∧
      c.scalar_type = first.scalar_type) :
    from_brace_list (first :: rest) =
      .ok (.InitListV (((first :: rest).length : Int) :: first.sizes)
        first.scalar_type (first :: rest)) := by
  simp only [from_brace_list, checkAgainstFirst_ok first (first :: rest) h]

/-- C1: for a non-empty sequence of children whose shapes and element kinds
all equal those of the first child, `from_brace_list` succeeds and yields an
`InitList` container with shape `[len(children)] ++ first.sizes` and the
first child's scalar type. -/
theorem c1_from_brace_list_uniform (first : TensorDataContainer)
    (rest : List TensorDataContainer)
    (h : ∀ c ∈ first :: rest, c.sizes = first.sizes ∧
      c.scalar_type = first.scalar_type) :
    ∃ r, from_brace_list (first :: rest) = .ok r ∧
      r.is_init_list = true ∧
      r.sizes = ((first :: rest).length : Int) :: first.sizes ∧
      r.scalar_type = first.scalar_type :=
  ⟨.InitListV (((first :: rest).length : Int) :: first.sizes)
    first.scalar_type (first :: rest),
   from_brace_list_ok_of_uniform first rest h, rfl, rfl, rfl⟩

/-- Witness for C1 at a concrete input: two scalar children of kind `Int`. -/
theorem c1_from_brace_list_uniform_witness :
    (∀ c ∈ [from_scalar .Int (.i 1), from_scalar .Int (.i 2)],
      c.sizes = (from_scalar .Int (.i 1)).sizes ∧
      c.scalar_type = (from_scalar .Int (.i 1)).scalar_type) ∧
    ∃ r, from_brace_list [from_scalar .Int (.i 1), from_scalar .Int (.i 2)] =
        .ok r ∧
      r.is_init_list = true ∧
      r.sizes = ([from_scalar .Int (.i 1), from_scalar .Int (.i 2)].length : Int)
        :: (from_scalar .Int (.i 1)).sizes ∧
      r.scalar_type = (from_scalar .Int (.i 1)).scalar_type := by
  refine ⟨?_, c1_from_brace_list_uniform _ _ ?_⟩ <;>
    (intro c hc; simp at hc;
     rcases hc with h | h <;> simp [h, from_scalar, sizes, scalar_type])



/-- Helper: the validation loop succeeds iff no child mismatches, and on
failure the error is determined by the earliest offending child. -/
theorem checkAgainstFirst_characterize (first : TensorDataContainer) :
    ∀ cs : List TensorDataContainer,
      match cs.find? (childMismatch first) with
      | none => checkAgainstFirst first cs = .ok ()
      | some c => checkAgainstFirst first cs = .error (childMismatchError first c) := by
  intro cs
  induction cs with
  | nil => simp [List.find?, checkAgainstFirst]
  | cons c rest ih =>
    by_cases h1 : c.sizes = first.sizes
    · by_cases h2 : c.scalar_type = first.scalar_type
      · have hm : childMismatch first c = false := by
          simp [childMismatch, h1, h2]
        rw [List.find?_cons_of_neg _ (by simp [hm])]
        simpa [checkAgainstFirst, h1, h2] using ih
      · have hm : childMismatch first c = true := by
          simp [childMismatch, h2]
        rw [List.find?_cons_of_pos _ hm]
        simp [checkAgainstFirst, h1, h2, childMismatchError]
    · have hm : childMismatch first c = true := by
        simp [childMismatch, h1]
      rw [List.find?_cons_of_pos _ hm]
      simp [checkAgainstFirst, h1, childMismatchError]

/-- C2 (amended): for a non-empty child sequence, `from_brace_list` succeeds
iff every child agrees with the first child on both shape and element kind;
on failure the error is determined by the earliest offending child, for
which the shape check runs before the kind check: `ShapeMismatch` when that
child's shape differs from the first child's, otherwise `KindMismatch`. -/
theorem c2_amended_first_offender (first : TensorDataContainer)
    (rest : List TensorDataContainer) :
    (match (first :: rest).find? (childMismatch first) with
     | none => from_brace_list (first :: rest) =
         .ok (.InitListV (((first :: rest).length : Int) :: first.sizes)
           first.scalar_type (first :: rest))
     | some c => from_brace_list (first :: rest) =
         .error (childMismatchError first c)) ∧
    ((∃ r, from_brace_list (first :: rest) = .ok r) ↔
      ∀ c ∈ first :: rest,
        c.sizes = first.sizes ∧ c.scalar_type = first.scalar_type) := by
  have hchar := checkAgainstFirst_characterize first (first :: rest)
  constructor
  · rcases hfind : (first :: rest).find? (childMismatch first) with _ | c
    · rw [hfind] at hchar
      simp only [from_brace_list, hchar]
    · rw [hfind] at hchar
      simp only [from_brace_list, hchar]
  · constructor
    · rintro ⟨r, hr⟩
      rcases hfind : (first :: rest).find? (childMismatch first) with _ | c
      · intro c hc
        have := (List.find?_eq_none.mp hfind) c hc
        simp only [childMismatch, Bool.or_eq_true, Bool.not_eq_true',
          beq_eq_false_iff_ne, ne_eq, not_or, Decidable.not_not] at this
        simpa using this
      · simp only [hfind] at hchar
        simp [from_brace_list, hchar] at hr
    · intro h
      exact ⟨_, from_brace_list_ok_of_uniform first rest h⟩



/-- C2 (counterexample): in `c2cex` some child's shape differs from the
first child's shape (the third child has shape `[0]`, the first has `[]`),
yet `from_brace_list` does not fail with a `ShapeMismatch`: it fails with
`KindMismatch` because the kind-offending second child is checked first. -/
theorem c2_counterexample :
    default_construct ∈ c2cex ∧
    default_construct.sizes ≠ (from_scalar .Int (.i 1)).sizes ∧
    from_brace_list c2cex = .error (.kindMismatch .Int .Float) ∧
    ∀ a b, from_brace_list c2cex ≠ .error (.shapeMismatch a b) := by
  refine ⟨by simp [c2cex], by simp [default_construct, from_scalar, sizes], rfl, ?_⟩
  intro a b h
  rw [show from_brace_list c2cex = .error (.kindMismatch .Int .Float) from rfl] at h
  simp at h

/-- C3: a default-constructed container is an `InitList` with shape `[0]`
and element kind `Undefined`, and the brace-list entry point applied to an
empty child sequence produces that same container (in C++ the empty brace
literal selects the zero-argument constructor). -/
theorem c3_default_construct :
    default_construct.is_init_list = true ∧
    default_construct.sizes = [0] ∧
    default_construct.scalar_type = .Undefined ∧
    from_brace_list [] = .ok default_construct :=
  ⟨rfl, rfl, rfl, rfl⟩

end ClaimsPart1

section ClaimsPart2

open TensorDataContainer

/-- C7: each variant accessor succeeds exactly on its own variant and fails
with the `Misuse` error (`TORCH_CHECK` message) on a foreign variant.  The
accessors of the model are pure functions of the container, so a failing
call cannot modify the container (invariant I4 is structural here). -/
theorem c7_accessor_discipline (c : TensorDataContainer) :
    (exceptIsOk c.scalar = c.is_scalar) ∧
    (c.scalar = .error (.misuse scalarAccessMsg) ∨ c.is_scalar = true) ∧
    (exceptIsOk c.init_list = c.is_init_list) ∧
    (c.init_list = .error (.misuse initListAccessMsg) ∨ c.is_init_list = true) ∧
    (exceptIsOk c.tensor = c.is_tensor) ∧
    (c.tensor = .error (.misuse tensorAccessMsg) ∨ c.is_tensor = true) := by
  cases c <;>
    simp [scalar, init_list, tensor, is_scalar, is_init_list, is_tensor,
      type_, exceptIsOk]

/-- C10: for every supported element kind and value, the scalar constructor
yields a container satisfying `is_scalar()` whose `scalar()` accessor
returns exactly the stored value (and whose shape is empty and kind is the
constructing kind). -/
theorem c10_scalar_roundtrip (st : ScalarType) (v : C10Scalar)
    (_h : st ≠ .Undefined) :
    (from_scalar st v).is_scalar = true ∧
    (from_scalar st v).scalar = .ok v ∧
    (from_scalar st v).sizes = [] ∧
    (from_scalar st v).scalar_type = st :=
  ⟨rfl, rfl, rfl, rfl⟩

/-- Witness for C10 at the concrete input `int64` value `7`. -/
theorem c10_scalar_roundtrip_witness :
    (ScalarType.Long ≠ ScalarType.Undefined) ∧
    ((from_scalar .Long (.i 7)).is_scalar = true ∧
     (from_scalar .Long (.i 7)).scalar = .ok (.i 7) ∧
     (from_scalar .Long (.i 7)).sizes = [] ∧
     (from_scalar .Long (.i 7)).scalar_type = .Long) :=
  ⟨by decide, c10_scalar_roundtrip .Long (.i 7) (by decide)⟩

end ClaimsPart2
section FillFactsProofs

/-- A sub-view shares its parent's device. -/
theorem index_device (t : BackendTensor) (i : Nat) :
    (t.index i).device = t.device := rfl

/-- A sub-view's shape is the parent's shape without the first axis. -/
theorem index_sizes (t : BackendTensor) (i : Nat) :
    (t.index i).sizes = t.sizes.tail := rfl

/-- Writing a slice back leaves the device unchanged. -/
theorem writeSub_device (t : BackendTensor) (i : Nat) (s : BackendTensor) :
    (t.writeSub i s).device = t.device := rfl

/-- Writing a slice back leaves the shape unchanged. -/
theorem writeSub_sizes (t : BackendTensor) (i : Nat) (s : BackendTensor) :
    (t.writeSub i s).sizes = t.sizes := rfl

/-- In-place fill leaves the shape unchanged. -/
theorem fillUnderscore_sizes (t : BackendTensor) (v : C10Scalar) :
    (t.fill_ v).sizes = t.sizes := rfl

/-- In-place fill leaves the device unchanged. -/
theorem fillUnderscore_device (t : BackendTensor) (v : C10Scalar) :
    (t.fill_ v).device = t.device := rfl

/-- The facts of `FillRunFacts` hold of the child loop, given that they
hold of each child's own fill. -/
theorem fillChildren_facts_aux (cs : List TensorDataContainer)
    (ih : ∀ c ∈ cs, ∀ (t : BackendTensor) (m : GradState),
      FillRunFacts t m (TensorDataContainer.fill_tensor c t m)) :
    ∀ (t : BackendTensor) (i : Nat) (m : GradState),
      FillRunFacts t m (TensorDataContainer.fillChildren cs t i m) := by
  induction cs with
  | nil =>
    intro t i m
    refine ⟨rfl, by simp [TensorDataContainer.fillChildren],
      by simp [TensorDataContainer.fillChildren], ?_⟩
    intro t' h
    simp only [TensorDataContainer.fillChildren] at h
    cases h
    exact ⟨rfl, rfl⟩
  | cons c rest ihr =>
    intro t i m
    obtain ⟨hcState, hcEv, hcWr, hcOk⟩ := ih c (by simp) (t.index i) m
    have hrest := ihr (fun c' h' => ih c' (by simp [h']))
    cases hres : (TensorDataContainer.fill_tensor c (t.index i) m).2.2 with
    | error e =>
      simp only [TensorDataContainer.fillChildren, hres]
      refine ⟨rfl, fun e' he' => hcEv e' he', ?_, ?_⟩
      · intro dev nv gm hmem
        have h := hcWr dev nv gm hmem
        rw [index_device] at h
        exact h
      · intro t' h
        cases h
    | ok sub =>
      simp only [TensorDataContainer.fillChildren, hres]
      obtain ⟨hrState, hrEv, hrWr, hrOk⟩ := hrest (t.writeSub i sub) (i + 1) m
      refine ⟨rfl, ?_, ?_, ?_⟩
      · intro e he
        rcases List.mem_append.mp he with h | h
        · exact hcEv e h
        · exact hrEv e h
      · intro dev nv gm hmem
        rcases List.mem_append.mp hmem with h | h
        · have h2 := hcWr dev nv gm h
          rw [index_device] at h2
          exact h2
        · have h2 := hrWr dev nv gm h
          rw [writeSub_device] at h2
          exact h2
      · intro t' h
        have h2 := hrOk t' h
        rw [writeSub_sizes, writeSub_device] at h2
        exact h2

/-- Every fill run restores the autograd state, emits no creation and no
transfer, writes only on the target's device with grad mode disabled, and
on success preserves the target's shape and device. -/
theorem fill_tensor_facts :
    ∀ (c : TensorDataContainer) (t : BackendTensor) (m : GradState),
      FillRunFacts t m (TensorDataContainer.fill_tensor c t m) := by
  refine TensorDataContainer.strongInduction ?_ ?_ ?_
  · intro st v t m
    by_cases hd : t.dim = 0
    · simp only [TensorDataContainer.fill_tensor, hd, if_true]
      refine ⟨rfl, ?_, ?_, ?_⟩
      · intro e he
        rcases List.mem_cons.mp he with h | h
        · subst h; exact ⟨rfl, rfl⟩
        · rcases List.mem_singleton.mp h with h
          subst h; exact ⟨rfl, rfl⟩
      · intro dev nv gm hmem
        rcases List.mem_cons.mp hmem with h | h
        · exact BackendEvent.noConfusion h
        · rcases List.mem_singleton.mp h with h
          cases h
          exact ⟨rfl, rfl, rfl⟩
      · intro t' h
        cases h
        exact ⟨rfl, rfl⟩
    · simp only [TensorDataContainer.fill_tensor, hd, if_false]
      refine ⟨rfl, ?_, ?_, ?_⟩
      · intro e he
        rcases List.mem_singleton.mp he with h
        subst h; exact ⟨rfl, rfl⟩
      · intro dev nv gm hmem
        rcases List.mem_singleton.mp hmem with h
        exact BackendEvent.noConfusion h
      · intro t' h
        cases h
  · intro s st children ihm t m
    have aux := fillChildren_facts_aux children ihm t 0 m
    obtain ⟨h1, h2, h3, h4⟩ := aux
    by_cases hcond : t.sizes.headD 0 = (children.length : Int)
    · simp only [TensorDataContainer.fill_tensor, hcond, if_true]
      refine ⟨rfl, ?_, ?_, ?_⟩
      · intro e he
        rcases List.mem_cons.mp he with h | h
        · subst h; exact ⟨rfl, rfl⟩
        · exact h2 e h
      · intro dev nv gm hmem
        rcases List.mem_cons.mp hmem with h | h
        · exact BackendEvent.noConfusion h
        · exact h3 dev nv gm h
      · intro t' h
        exact h4 t' h
    · simp only [TensorDataContainer.fill_tensor, hcond, if_false]
      refine ⟨rfl, ?_, ?_, ?_⟩
      · intro e he
        rcases List.mem_singleton.mp he with h
        subst h; exact ⟨rfl, rfl⟩
      · intro dev nv gm hmem
        rcases List.mem_singleton.mp hmem with h
        exact BackendEvent.noConfusion h
      · intro t' h
        cases h
  · intro s st bt t m
    refine ⟨rfl, ?_, ?_, ?_⟩
    · intro e he
      rcases List.mem_singleton.mp he with h
      subst h; exact ⟨rfl, rfl⟩
    · intro dev nv gm hmem
      rcases List.mem_singleton.mp hmem with h
      exact BackendEvent.noConfusion h
    · intro t' h
      cases h

end FillFactsProofs

section ShapeProofs

/-- Unfolding of the child-list well-formedness predicate. -/
theorem wellFormedChildren_iff :
    ∀ cs : List TensorDataContainer,
      TensorDataContainer.wellFormedChildren cs = true ↔
      ∀ c ∈ cs, c.is_tensor = false ∧ c.wellFormedLiteral = true := by
  intro cs
  induction cs with
  | nil => simp [TensorDataContainer.wellFormedChildren]
  | cons c rest ih =>
    simp only [TensorDataContainer.wellFormedChildren, Bool.and_eq_true,
      Bool.not_eq_true', ih, List.forall_mem_cons]

/-- If every child fills successfully on a matching target, so does the
child loop on a target whose trailing shape matches the children. -/
theorem fillChildren_ok_aux (subSizes : List Int) :
    ∀ cs : List TensorDataContainer,
      (∀ c ∈ cs, ∀ (t : BackendTensor) (m : GradState), t.sizes = c.sizes →
        ∃ t', (TensorDataContainer.fill_tensor c t m).2.2 = .ok t') →
      (∀ c ∈ cs, c.sizes = subSizes) →
      ∀ (t : BackendTensor) (i : Nat) (m : GradState), t.sizes.tail = subSizes →
        ∃ t', (TensorDataContainer.fillChildren cs t i m).2.2 = .ok t' := by
  intro cs
  induction cs with
  | nil =>
    intro _ _ t i m _
    exact ⟨t, rfl⟩
  | cons c rest ih =>
    intro hok hsz t i m ht
    obtain ⟨sub, hsub⟩ := hok c (by simp) (t.index i) m
      (by rw [index_sizes, ht]; exact (hsz c (by simp)).symm)
    simp only [TensorDataContainer.fillChildren, hsub]
    exact ih (fun c' h' => hok c' (by simp [h']))
      (fun c' h' => hsz c' (by simp [h']))
      (t.writeSub i sub) (i + 1) m (by rw [writeSub_sizes]; exact ht)

/-- A well-formed literal container (scalar or init list) fills any target
tensor of its own shape successfully. -/
theorem fill_ok_of_wellFormed :
    ∀ c : TensorDataContainer, c.wellFormedLiteral = true → c.is_tensor = false →
      ∀ (t : BackendTensor) (m : GradState), t.sizes = c.sizes →
        ∃ t', (TensorDataContainer.fill_tensor c t m).2.2 = .ok t' := by
  refine TensorDataContainer.strongInduction ?_ ?_ ?_
  · intro st v _ _ t m ht
    have hd : t.dim = 0 := by
      simp [BackendTensor.dim, ht, TensorDataContainer.sizes]
    simp [TensorDataContainer.fill_tensor, hd]
  · intro s st children ihm hwf _ t m ht
    cases children with
    | nil =>
      have hs : s = [0] := by
        simpa [TensorDataContainer.wellFormedLiteral,
          TensorDataContainer.wellFormedChildren] using hwf
      have ht2 : t.sizes = [0] := by
        rw [ht]
        simp [TensorDataContainer.sizes, hs]
      refine ⟨t, ?_⟩
      simp [TensorDataContainer.fill_tensor, TensorDataContainer.fillChildren, ht2]
    | cons c0 rest0 =>
      have hwf' := hwf
      simp only [TensorDataContainer.wellFormedLiteral, Bool.and_eq_true,
        beq_iff_eq, List.all_eq_true] at hwf'
      obtain ⟨⟨hseq, hall⟩, hch⟩ := hwf'
      have hchildren := (wellFormedChildren_iff _).mp hch
      have hcond : t.sizes.headD 0 = ((c0 :: rest0).length : Int) := by
        rw [ht]
        simp [TensorDataContainer.sizes, hseq]
      have htail : t.sizes.tail = c0.sizes := by
        rw [ht]
        simp [TensorDataContainer.sizes, hseq]
      obtain ⟨t', ht'⟩ := fillChildren_ok_aux c0.sizes (c0 :: rest0)
        (fun c hc => ihm c hc (hchildren c hc).2 (hchildren c hc).1)
        (fun c hc => by simpa using hall c hc)
        t 0 m htail
      simp only [TensorDataContainer.fill_tensor, hcond, if_true]
      exact ⟨t', ht'⟩
  · intro s st bt _ htensor _ _ _
    exact absurd htensor
      (by simp [TensorDataContainer.is_tensor, TensorDataContainer.type_])

end ShapeProofs

section ClaimC4

open TensorDataContainer

/-- C4: for every well-formed (rectangular) container, the backend tensor
returned by `convert_to_tensor` has exactly the container's own shape, for
every requested target device and element kind. -/
theorem c4_materialize_shape (c : TensorDataContainer) (options : TensorOptions)
    (m : GradState) (h : c.wellFormedLiteral = true) :
    ∃ t, (c.convert_to_tensor options m).2.2 = .ok t ∧ t.sizes = c.sizes := by
  cases c with
  | ScalarV st v =>
    exact ⟨_, rfl, rfl⟩
  | InitListV s st children =>
    obtain ⟨t1, ht1⟩ := fill_ok_of_wellFormed (.InitListV s st children) h
      (by simp [TensorDataContainer.is_tensor, TensorDataContainer.type_])
      (emptyTensor s { options with device := Device.cpu, is_variable := false })
      m rfl
    obtain ⟨_, _, _, hok⟩ := fill_tensor_facts (.InitListV s st children)
      (emptyTensor s { options with device := Device.cpu, is_variable := false }) m
    have hsz := (hok t1 ht1).1
    refine ⟨t1.toDevice options.device, ?_, ?_⟩
    · simp only [TensorDataContainer.convert_to_tensor, ht1]
    · simpa [BackendTensor.toDevice, TensorDataContainer.sizes, emptyTensor]
        using hsz
  | TensorV s st bt =>
    have hs : s = bt.sizes := by
      simpa [TensorDataContainer.wellFormedLiteral] using h
    exact ⟨_, rfl, by simp [BackendTensor.toOptions, TensorDataContainer.sizes, hs]⟩

/-- Witness for C4 at a concrete input: a rectangular 2-by-2 float literal
materialized onto a remote device. -/
theorem c4_materialize_shape_witness :
    (TensorDataContainer.InitListV [2, 2] .Float
      [.InitListV [2] .Float [.ScalarV .Float (.d 1), .ScalarV .Float (.d 2)],
       .InitListV [2] .Float [.ScalarV .Float (.d 3), .ScalarV .Float (.d 4)]]).wellFormedLiteral
      = true ∧
    ∃ t, ((TensorDataContainer.InitListV [2, 2] .Float
      [.InitListV [2] .Float [.ScalarV .Float (.d 1), .ScalarV .Float (.d 2)],
       .InitListV [2] .Float [.ScalarV .Float (.d 3), .ScalarV .Float (.d 4)]]).convert_to_tensor
        ⟨Device.cuda 0, .Float, false⟩ ⟨false, true⟩).2.2 = .ok t ∧
      t.sizes = (TensorDataContainer.InitListV [2, 2] .Float
        [.InitListV [2] .Float [.ScalarV .Float (.d 1), .ScalarV .Float (.d 2)],
         .InitListV [2] .Float [.ScalarV .Float (.d 3), .ScalarV .Float (.d 4)]]).sizes :=
  ⟨rfl, c4_materialize_shape _ ⟨Device.cuda 0, .Float, false⟩ ⟨false, true⟩ rfl⟩

end ClaimC4

section ClaimC5

/-- C5: materializing any `InitList` container to a target device other
than the staging device invokes the device-transfer primitive at most once
regardless of the child count, every elementwise write happens on the
staging device (CPU), and no transfer call occurs before the final event —
so all writes precede the single transfer. -/
theorem c5_single_transfer (s : List Int) (st : ScalarType)
    (children : List TensorDataContainer) (options : TensorOptions)
    (m : GradState) (_h : options.device ≠ Device.cpu) :
    ((TensorDataContainer.convert_to_tensor (.InitListV s st children) options m).1.countP
      (fun e => e.isTransferCall)) ≤ 1 ∧
    (∀ dev nv gm, BackendEvent.fillWrite dev nv gm ∈
      (TensorDataContainer.convert_to_tensor (.InitListV s st children) options m).1 →
      dev = Device.cpu) ∧
    (∀ e ∈ ((TensorDataContainer.convert_to_tensor (.InitListV s st children) options m).1).dropLast,
      e.isTransferCall = false) := by
  obtain ⟨hst, hev, hwr, hok⟩ := fill_tensor_facts (.InitListV s st children)
    (emptyTensor s { options with device := Device.cpu, is_variable := false }) m
  have hz : ((TensorDataContainer.fill_tensor (.InitListV s st children)
      (emptyTensor s { options with device := Device.cpu, is_variable := false }) m).1).countP
      (fun e => e.isTransferCall) = 0 :=
    List.countP_eq_zero.mpr (fun a ha => by simp [(hev a ha).1])
  cases hres : (TensorDataContainer.fill_tensor (.InitListV s st children)
      (emptyTensor s { options with device := Device.cpu, is_variable := false }) m).2.2 with
  | error e =>
    simp only [TensorDataContainer.convert_to_tensor, hres]
    refine ⟨?_, ?_, ?_⟩
    · rw [List.countP_cons, hz]
      simp [BackendEvent.isTransferCall]
    · intro dev nv gm hmem
      rcases List.mem_cons.mp hmem with hm | hm
      · exact BackendEvent.noConfusion hm
      · exact ((hwr dev nv gm hm).1).trans rfl
    · intro e' he'
      have hsub := List.Sublist.subset (List.dropLast_sublist _) he'
      rcases List.mem_cons.mp hsub with hm | hm
      · subst hm; rfl
      · exact (hev e' hm).1
  | ok t1 =>
    simp only [TensorDataContainer.convert_to_tensor, hres]
    refine ⟨?_, ?_, ?_⟩
    · rw [List.countP_append, List.countP_cons, hz]
      simp [BackendEvent.isTransferCall]
    · intro dev nv gm hmem
      rcases List.mem_append.mp hmem with hm | hm
      · rcases List.mem_cons.mp hm with hm2 | hm2
        · exact BackendEvent.noConfusion hm2
        · exact ((hwr dev nv gm hm2).1).trans rfl
      · rcases List.mem_singleton.mp hm with hm3
        exact BackendEvent.noConfusion hm3
    · intro e' he'
      rw [List.dropLast_concat] at he'
      rcases List.mem_cons.mp he' with hm | hm
      · subst hm; rfl
      · exact (hev e' hm).1

/-- Witness for C5 at a concrete input: a one-element int literal
materialized onto a CUDA device. -/
theorem c5_single_transfer_witness :
    (TensorOptions.mk (Device.cuda 0) .Int false).device ≠ Device.cpu ∧
    (((TensorDataContainer.convert_to_tensor (.InitListV [1] .Int [.ScalarV .Int (.i 5)])
        ⟨Device.cuda 0, .Int, false⟩ ⟨false, true⟩).1.countP
        (fun e => e.isTransferCall)) ≤ 1 ∧
      (∀ dev nv gm, BackendEvent.fillWrite dev nv gm ∈
        (TensorDataContainer.convert_to_tensor (.InitListV [1] .Int [.ScalarV .Int (.i 5)])
          ⟨Device.cuda 0, .Int, false⟩ ⟨false, true⟩).1 →
        dev = Device.cpu) ∧
      (∀ e ∈ ((TensorDataContainer.convert_to_tensor (.InitListV [1] .Int [.ScalarV .Int (.i 5)])
          ⟨Device.cuda 0, .Int, false⟩ ⟨false, true⟩).1).dropLast,
        e.isTransferCall = false)) :=
  ⟨by decide,
   c5_single_transfer [1] .Int [.ScalarV .Int (.i 5)] ⟨Device.cuda 0, .Int, false⟩
     ⟨false, true⟩ (by decide)⟩

end ClaimC5

section ClaimC6

/-- C6 (amended): every tensor created by the creation primitives
(`at::scalar_tensor`, `at::empty`, `at::native::tensor`) during `from_flat`
construction and during materialization is created while the scoped
non-tracking mode (`AutoNonVariableTypeMode`) is active, every elementwise
fill write runs with grad mode disabled (`NoGradGuard`), and the autograd
state is restored on every exit path including failures; but the
device-transfer calls (`Tensor::to`) of the `InitList` and `Tensor`
materialization paths execute outside any non-tracking scope, with the
caller's unmodified flags. -/
theorem c6_amended_nonvar_scope (c : TensorDataContainer)
    (options : TensorOptions) (m : GradState) (st : ScalarType)
    (values : List C10Scalar) :
    ((c.convert_to_tensor options m).2.1 = m) ∧
    (∀ k dev nv gm, BackendEvent.create k dev nv gm ∈
      (c.convert_to_tensor options m).1 → nv = true) ∧
    (∀ src dst cn nv gm, BackendEvent.toCall src dst cn nv gm ∈
      (c.convert_to_tensor options m).1 →
      nv = m.nonVarTypeMode ∧ gm = m.gradModeEnabled) ∧
    (∀ dev nv gm, BackendEvent.fillWrite dev nv gm ∈
      (c.convert_to_tensor options m).1 →
      nv = m.nonVarTypeMode ∧ gm = false) ∧
    ((TensorDataContainer.from_flat st values m).2.1 = m) ∧
    (∀ k dev nv gm, BackendEvent.create k dev nv gm ∈
      (TensorDataContainer.from_flat st values m).1 → nv = true) := by
  have hflat1 : (TensorDataContainer.from_flat st values m).2.1 = m := rfl
  have hflat2 : ∀ k dev nv gm, BackendEvent.create k dev nv gm ∈
      (TensorDataContainer.from_flat st values m).1 → nv = true := by
    intro k dev nv gm hmem
    rcases List.mem_singleton.mp hmem with hm
    cases hm
    rfl
  cases c with
  | ScalarV stc v =>
    refine ⟨rfl, ?_, ?_, ?_, hflat1, hflat2⟩
    · intro k dev nv gm hmem
      rcases List.mem_singleton.mp hmem with hm
      cases hm
      rfl
    · intro src dst cn nv gm hmem
      rcases List.mem_singleton.mp hmem with hm
      exact BackendEvent.noConfusion hm
    · intro dev nv gm hmem
      rcases List.mem_singleton.mp hmem with hm
      exact BackendEvent.noConfusion hm
  | InitListV s stc children =>
    obtain ⟨hst, hev, hwr, hok⟩ := fill_tensor_facts (.InitListV s stc children)
      (emptyTensor s { options with device := Device.cpu, is_variable := false }) m
    cases hres : (TensorDataContainer.fill_tensor (.InitListV s stc children)
        (emptyTensor s { options with device := Device.cpu, is_variable := false }) m).2.2 with
    | error e =>
      simp only [TensorDataContainer.convert_to_tensor, hres]
      refine ⟨by trivial, ?_, ?_, ?_, hflat1, hflat2⟩
      · intro k dev nv gm hmem
        rcases List.mem_cons.mp hmem with hm | hm
        · cases hm; rfl
        · have h2 := (hev _ hm).2
          simp [BackendEvent.isTensorCreation] at h2
      · intro src dst cn nv gm hmem
        rcases List.mem_cons.mp hmem with hm | hm
        · exact BackendEvent.noConfusion hm
        · have h2 := (hev _ hm).1
          simp [BackendEvent.isTransferCall] at h2
      · intro dev nv gm hmem
        rcases List.mem_cons.mp hmem with hm | hm
        · exact BackendEvent.noConfusion hm
        · exact ⟨(hwr dev nv gm hm).2.1, (hwr dev nv gm hm).2.2⟩
    | ok t1 =>
      simp only [TensorDataContainer.convert_to_tensor, hres]
      refine ⟨by trivial, ?_, ?_, ?_, hflat1, hflat2⟩
      · intro k dev nv gm hmem
        rcases List.mem_append.mp hmem with hm | hm
        · rcases List.mem_cons.mp hm with hm2 | hm2
          · cases hm2; rfl
          · have h2 := (hev _ hm2).2
            simp [BackendEvent.isTensorCreation] at h2
        · rcases List.mem_singleton.mp hm with hm3
          exact BackendEvent.noConfusion hm3
      · intro src dst cn nv gm hmem
        rcases List.mem_append.mp hmem with hm | hm
        · rcases List.mem_cons.mp hm with hm2 | hm2
          · exact BackendEvent.noConfusion hm2
          · have h2 := (hev _ hm2).1
            simp [BackendEvent.isTransferCall] at h2
        · rcases List.mem_singleton.mp hm with hm3
          cases hm3
          exact ⟨rfl, rfl⟩
      · intro dev nv gm hmem
        rcases List.mem_append.mp hmem with hm | hm
        · rcases List.mem_cons.mp hm with hm2 | hm2
          · exact BackendEvent.noConfusion hm2
          · exact ⟨(hwr dev nv gm hm2).2.1, (hwr dev nv gm hm2).2.2⟩
        · rcases List.mem_singleton.mp hm with hm3
          exact BackendEvent.noConfusion hm3
  | TensorV s stc bt =>
    refine ⟨rfl, ?_, ?_, ?_, hflat1, hflat2⟩
    · intro k dev nv gm hmem
      rcases List.mem_singleton.mp hmem with hm
      exact BackendEvent.noConfusion hm
    · intro src dst cn nv gm hmem
      rcases List.mem_singleton.mp hmem with hm
      cases hm
      exact ⟨rfl, rfl⟩
    · intro dev nv gm hmem
      rcases List.mem_singleton.mp hmem with hm
      exact BackendEvent.noConfusion hm

/-- C6 (counterexample): materializing the int literal `[5]` onto a CUDA
device succeeds, and its trace contains a tensor creation — the device
transfer, which creates the remote tensor — performed while the
non-tracking mode is inactive.  So not every backend tensor created during
materialization is created under the non-tracking mode. -/
theorem c6_counterexample :
    exceptIsOk (TensorDataContainer.convert_to_tensor
      (.InitListV [1] .Int [.ScalarV .Int (.i 5)])
      ⟨Device.cuda 0, .Int, false⟩ ⟨false, true⟩).2.2 = true ∧
    ((TensorDataContainer.convert_to_tensor
      (.InitListV [1] .Int [.ScalarV .Int (.i 5)])
      ⟨Device.cuda 0, .Int, false⟩ ⟨false, true⟩).1.any
      (fun e => e.isTensorCreation && !e.underNonVarTypeMode)) = true :=
  ⟨rfl, rfl⟩

end ClaimC6

section ClaimC8

/-- Unfolding of the no-flat-child predicate for a child list. -/
theorem noFlatChildren_iff :
    ∀ cs : List TensorDataContainer,
      TensorDataContainer.noFlatChildren cs = true ↔
      ∀ c ∈ cs, c.is_tensor = false ∧ c.noFlatInsideList = true := by
  intro cs
  induction cs with
  | nil => simp [TensorDataContainer.noFlatChildren]
  | cons c rest ih =>
    simp only [TensorDataContainer.noFlatChildren, Bool.and_eq_true,
      Bool.not_eq_true', ih, List.forall_mem_cons]

/-- The child loop never enters the `Tensor` branch of `fill_tensor` when
no child is (or contains) a flat tensor. -/
theorem fillChildren_no_tensor_enter_aux (cs : List TensorDataContainer)
    (ih : ∀ c ∈ cs, c.noFlatInsideList = true → c.is_tensor = false →
      ∀ (t : BackendTensor) (m : GradState),
        ∀ e ∈ (TensorDataContainer.fill_tensor c t m).1,
          e.isFillEnterOnTensor = false)
    (hcs : ∀ c ∈ cs, c.is_tensor = false ∧ c.noFlatInsideList = true) :
    ∀ (t : BackendTensor) (i : Nat) (m : GradState),
      ∀ e ∈ (TensorDataContainer.fillChildren cs t i m).1,
        e.isFillEnterOnTensor = false := by
  induction cs with
  | nil =>
    intro t i m e he
    simp [TensorDataContainer.fillChildren] at he
  | cons c rest ihr =>
    intro t i m e he
    have hc := hcs c (by simp)
    have hhead := ih c (by simp) hc.2 hc.1 (t.index i) m
    cases hres : (TensorDataContainer.fill_tensor c (t.index i) m).2.2 with
    | error er =>
      simp only [TensorDataContainer.fillChildren, hres] at he
      exact hhead e he
    | ok sub =>
      simp only [TensorDataContainer.fillChildren, hres] at he
      rcases List.mem_append.mp he with hm | hm
      · exact hhead e hm
      · exact ihr (fun c' h' => ih c' (by simp [h']))
          (fun c' h' => hcs c' (by simp [h']))
          (t.writeSub i sub) (i + 1) m e hm

/-- A fill run on a container with no flat tensor inside never dispatches
`fill_tensor` on the `Tensor` variant. -/
theorem fill_no_tensor_enter :
    ∀ c : TensorDataContainer, c.noFlatInsideList = true → c.is_tensor = false →
      ∀ (t : BackendTensor) (m : GradState),
        ∀ e ∈ (TensorDataContainer.fill_tensor c t m).1,
          e.isFillEnterOnTensor = false := by
  refine TensorDataContainer.strongInduction ?_ ?_ ?_
  · intro st v _ _ t m e he
    by_cases hd : t.dim = 0 <;>
      simp only [TensorDataContainer.fill_tensor, hd, if_true, if_false] at he
    · rcases List.mem_cons.mp he with hm | hm
      · subst hm; rfl
      · rcases List.mem_singleton.mp hm with hm2
        subst hm2; rfl
    · rcases List.mem_singleton.mp he with hm
      subst hm; rfl
  · intro s st children ihm hnf _ t m e he
    have hch : TensorDataContainer.noFlatChildren children = true := by
      simpa [TensorDataContainer.noFlatInsideList] using hnf
    have hchildren := (noFlatChildren_iff children).mp hch
    by_cases hcond : t.sizes.headD 0 = (children.length : Int) <;>
      simp only [TensorDataContainer.fill_tensor, hcond, if_true, if_false] at he
    · rcases List.mem_cons.mp he with hm | hm
      · subst hm; rfl
      · exact fillChildren_no_tensor_enter_aux children ihm hchildren t 0 m e hm
    · rcases List.mem_singleton.mp he with hm
      subst hm; rfl
  · intro s st bt _ htensor
    exact absurd htensor
      (by simp [TensorDataContainer.is_tensor, TensorDataContainer.type_])

/-- C8 (amended): dispatching `fill_tensor` on a `Tensor`-variant container
is an internal invariant violation (`TORCH_INTERNAL_ASSERT`), and the
branch is unreachable during `convert_to_tensor` for every container in
which no flat-tensor container sits inside an init list — in particular
for every container built purely from scalars and brace lists.  (An init
list that does contain a `Tensor`-variant child reaches the branch; see the
counterexample.) -/
theorem c8_amended_fill_unreachable (c : TensorDataContainer)
    (options : TensorOptions) (m : GradState)
    (h : c.noFlatInsideList = true) :
    (∀ e ∈ (c.convert_to_tensor options m).1, e.isFillEnterOnTensor = false) ∧
    (∀ (s : List Int) (st : ScalarType) (bt : BackendTensor)
      (t : BackendTensor) (m2 : GradState),
      (TensorDataContainer.fill_tensor (.TensorV s st bt) t m2).2.2 =
        .error (.internalAssert fillOnTensorMsg)) := by
  refine ⟨?_, fun s st bt t m2 => rfl⟩
  cases c with
  | ScalarV st v =>
    intro e he
    rcases List.mem_singleton.mp he with hm
    subst hm; rfl
  | InitListV s st children =>
    intro e he
    cases hres : (TensorDataContainer.fill_tensor (.InitListV s st children)
        (emptyTensor s { options with device := Device.cpu, is_variable := false }) m).2.2 with
    | error er =>
      simp only [TensorDataContainer.convert_to_tensor, hres] at he
      rcases List.mem_cons.mp he with hm | hm
      · subst hm; rfl
      · exact fill_no_tensor_enter (.InitListV s st children) h
          (by simp [TensorDataContainer.is_tensor, TensorDataContainer.type_])
          _ m e hm
    | ok t1 =>
      simp only [TensorDataContainer.convert_to_tensor, hres] at he
      rcases List.mem_append.mp he with hm | hm
      · rcases List.mem_cons.mp hm with hm2 | hm2
        · subst hm2; rfl
        · exact fill_no_tensor_enter (.InitListV s st children) h
            (by simp [TensorDataContainer.is_tensor, TensorDataContainer.type_])
            _ m e hm2
      · rcases List.mem_singleton.mp hm with hm3
        subst hm3; rfl
  | TensorV s st bt =>
    intro e he
    rcases List.mem_singleton.mp he with hm
    subst hm; rfl

/-- Witness for C8 (amended) at a concrete input: a pure scalar literal. -/
theorem c8_amended_fill_unreachable_witness :
    (TensorDataContainer.InitListV [1] .Int
      [.ScalarV .Int (.i 3)]).noFlatInsideList = true ∧
    ((∀ e ∈ ((TensorDataContainer.InitListV [1] .Int
        [.ScalarV .Int (.i 3)]).convert_to_tensor
        ⟨Device.cpu, .Int, false⟩ ⟨false, true⟩).1,
      e.isFillEnterOnTensor = false) ∧
     (∀ (s : List Int) (st : ScalarType) (bt : BackendTensor)
       (t : BackendTensor) (m2 : GradState),
       (TensorDataContainer.fill_tensor (.TensorV s st bt) t m2).2.2 =
         .error (.internalAssert fillOnTensorMsg))) :=
  ⟨rfl, c8_amended_fill_unreachable (.InitListV [1] .Int [.ScalarV .Int (.i 3)])
    ⟨Device.cpu, .Int, false⟩ ⟨false, true⟩ rfl⟩

/-- C8 (counterexample): `from_brace_list` accepts a brace list whose only
child is a flat-tensor container (built by `from_flat`), and materializing
the accepted container does reach the `fill_tensor` branch for the `Tensor`
variant: the trace records the dispatch and the result is the internal
invariant violation.  So the branch is not unreachable for every container
materialized through `convert_to_tensor`. -/
theorem c8_counterexample :
    TensorDataContainer.from_brace_list [c8flatChild] = .ok c8cex ∧
    ((c8cex.convert_to_tensor ⟨Device.cuda 0, .Int, false⟩ ⟨false, true⟩).1.any
      (fun e => e.isFillEnterOnTensor)) = true ∧
    (c8cex.convert_to_tensor ⟨Device.cuda 0, .Int, false⟩ ⟨false, true⟩).2.2 =
      .error (.internalAssert fillOnTensorMsg) :=
  ⟨rfl, rfl, rfl⟩

end ClaimC8

section ClaimC9

/-- The accumulator of `String.intercalate.go` factors out on the left. -/
theorem intercalate_go_append (s : String) :
    ∀ (as : List String) (acc1 acc2 : String),
      String.intercalate.go (acc1 ++ acc2) s as =
        acc1 ++ String.intercalate.go acc2 s as := by
  intro as
  induction as with
  | nil => intro acc1 acc2; rfl
  | cons a as ih =>
    intro acc1 acc2
    show String.intercalate.go ((acc1 ++ acc2) ++ s ++ a) s as =
      acc1 ++ String.intercalate.go (acc2 ++ s ++ a) s as
    rw [String.append_assoc, String.append_assoc, ← String.append_assoc acc2]
    exact ih acc1 _

/-- Unfolding of `String.intercalate` on a list with at least two items. -/
theorem intercalate_cons_cons (s a b : String) (l : List String) :
    String.intercalate s (a :: b :: l) =
      a ++ s ++ String.intercalate s (b :: l) := by
  show String.intercalate.go ((a ++ s) ++ b) s l =
    (a ++ s) ++ String.intercalate.go b s l
  exact intercalate_go_append s l (a ++ s) b

/-- The left fold by append factors its seed out on the left. -/
theorem string_foldl_shift :
    ∀ (l : List String) (acc : String),
      List.foldl (fun r x => r ++ x) acc l =
        acc ++ List.foldl (fun r x => r ++ x) "" l := by
  intro l
  induction l with
  | nil => intro acc; exact (String.append_empty acc).symm
  | cons b l ih =>
    intro acc
    show List.foldl (fun r x => r ++ x) (acc ++ b) l =
      acc ++ List.foldl (fun r x => r ++ x) ("" ++ b) l
    rw [ih (acc ++ b), ih ("" ++ b), String.empty_append, String.append_assoc]

/-- Unfolding of `String.join` on a cons. -/
theorem string_join_cons (a : String) (l : List String) :
    String.join (a :: l) = a ++ String.join l := by
  show List.foldl (fun r x => r ++ x) ("" ++ a) l =
    a ++ List.foldl (fun r x => r ++ x) "" l
  rw [String.empty_append]
  exact string_foldl_shift l a

/-- The child loop of the pretty-printer produces exactly the children's
renderings interleaved with the separator `", "`. -/
theorem printChildren_intercalate (render : ScalarType → C10Scalar → String) :
    ∀ cs : List TensorDataContainer,
      TensorDataContainer.printChildren render cs =
        String.intercalate ", "
          (cs.map (TensorDataContainer.pretty_print_recursive render)) := by
  intro cs
  induction cs with
  | nil => rfl
  | cons c rest ih =>
    cases rest with
    | nil =>
      show TensorDataContainer.pretty_print_recursive render c ++ "" ++ "" = _
      rw [String.append_empty, String.append_empty]
      rfl
    | cons c2 rest2 =>
      show TensorDataContainer.pretty_print_recursive render c ++ ", " ++
        TensorDataContainer.printChildren render (c2 :: rest2) = _
      rw [ih]
      simp only [List.map_cons]
      rw [intercalate_cons_cons]

/-- The tensor-item loop concatenates the items' renderings. -/
theorem printTensorItemsAux_join (render : ScalarType → C10Scalar → String)
    (st : ScalarType) (t : BackendTensor) :
    ∀ idxs : List Nat,
      printTensorItemsAux render st t idxs =
        String.join (idxs.map (fun i => render st (t.itemAt i))) := by
  intro idxs
  induction idxs with
  | nil => rfl
  | cons i rest ih =>
    show render st (t.itemAt i) ++ printTensorItemsAux render st t rest = _
    rw [ih, List.map_cons, string_join_cons]

/-- Reading a list by position over `List.range` of its length is the list
itself. -/
theorem range_map_getD (g : C10Scalar → String) :
    ∀ l : List C10Scalar,
      (List.range l.length).map (fun i => g (l.getD i (C10Scalar.i 0))) =
        l.map g := by
  intro l
  induction l with
  | nil => rfl
  | cons a l ih =>
    rw [List.length_cons, List.range_succ_eq_map, List.map_cons, List.map_map]
    congr 1

/-- C9: an `InitList` container pretty-prints as an open brace, the
children's renderings separated by a comma and a space, and a close brace;
a flat-tensor container (as built by `from_flat`) pretty-prints as an open
brace, the items' renderings adjacent with no separator, and a close
brace.  `render` is the opaque per-kind textual form of a leaf value. -/
theorem c9_pretty_print (render : ScalarType → C10Scalar → String)
    (s : List Int) (st : ScalarType) (children : List TensorDataContainer)
    (st2 : ScalarType) (values : List C10Scalar) (m : GradState) :
    TensorDataContainer.pretty_print_recursive render (.InitListV s st children) =
      "\x7b" ++ String.intercalate ", "
        (children.map (TensorDataContainer.pretty_print_recursive render)) ++ "\x7d" ∧
    TensorDataContainer.pretty_print_recursive render
        (TensorDataContainer.from_flat st2 values m).2.2 =
      "\x7b" ++ String.join (values.map (render st2)) ++ "\x7d" := by
  constructor
  · show "\x7b" ++ TensorDataContainer.printChildren render children ++ "\x7d" = _
    rw [printChildren_intercalate]
  · show "\x7b" ++ printTensorItemsAux render st2
      (nativeTensor values st2 ⟨Device.cpu, st2, false⟩)
      (List.range values.length) ++ "\x7d" = _
    rw [printTensorItemsAux_join]
    show "\x7b" ++ String.join ((List.range values.length).map
      (fun i => render st2 (values.getD i (C10Scalar.i 0)))) ++ "\x7d" = _
    rw [range_map_getD]

end ClaimC9
